import Mathlib

set_option maxRecDepth 8000

/-!
Shallow embedding of the activity-export core of gcexport.py / utilities.py
(garmin-connect-export).  JSON values are modelled by an inductive type with
integer numbers (the claims only exercise integral numeric values), Python
dict lookups by association-list lookups, the filesystem by a path-to-bytes
association list, and HTTP by explicit environment functions.  Fallible code
returns Except over an error type mirroring the Python exception classes.
-/

/-- JSON values as produced by json.loads. -/
inductive JVal where
  | jnull : JVal
  | jbool : Bool → JVal
  | jnum : Int → JVal
  | jstr : String → JVal
  | jobj : List (String × JVal) → JVal
  | jarr : List JVal → JVal

/-- Python truthiness bool(x): None, False, 0, "", {}, [] are falsy. -/
def truthy : JVal → Bool
  | .jnull => false
  | .jbool b => b
  | .jnum n => n != 0
  | .jstr s => s != ""
  | .jobj fields => !fields.isEmpty
  | .jarr elems => !elems.isEmpty

/-- Association-list lookup (Python dict lookup; later insertions shadow). -/
def alookup {κ α : Type} [DecidableEq κ] (k : κ) : List (κ × α) → Option α
  | [] => none
  | (k2, v) :: rest => if k2 = k then some v else alookup k rest

/-- Association-list update (Python dict assignment): the new binding
shadows any previous one. -/
def aset {κ α : Type} [DecidableEq κ] (k : κ) (v : α) (l : List (κ × α)) :
    List (κ × α) :=
  (k, v) :: l

/-- Key lookup in a JSON value: the stored value on objects, none otherwise.
(The source only applies dict operations to dicts at these places.) -/
def jlookup (x : JVal) (k : String) : Option JVal :=
  match x with
  | .jobj fields => alookup k fields
  | _ => none

/-- x[k] with a null default: the stored value, or jnull when absent. -/
def jget (x : JVal) (k : String) : JVal :=
  (jlookup x k).getD .jnull

/-- Python membership test k in x for a dict x. -/
def jmem (k : String) (x : JVal) : Bool :=
  (jlookup x k).isSome

/-- Test for the JSON null value. -/
def isNull : JVal → Bool
  | .jnull => true
  | _ => false

/-- gcexport.absent_or_null: "Return False only if act[element] is valid and
not None" — true when act is falsy, or the key is missing, or the value is
falsy. -/
def absent_or_null (element : String) (act : JVal) : Bool :=
  if !truthy act then true
  else if !jmem element act then true
  else if truthy (jget act element) then false
  else true

/-- gcexport.from_activities_or_detail: "Return
detail[detail_container][element] if valid and act[element] (or None)
otherwise". -/
def from_activities_or_detail (element : String) (act : JVal) (detail : JVal)
    (detail_container : String) : JVal :=
  if absent_or_null detail_container detail
      || absent_or_null element (jget detail detail_container) then
    if absent_or_null element act then .jnull else jget act element
  else
    jget (jget detail detail_container) element

/-- Python "%02d" for the minute/second fields of timedelta.__str__
(their values are always below 60). -/
def pad2 (n : Nat) : String :=
  String.mk [Nat.digitChar (n / 10 % 10), Nat.digitChar (n % 10)]

/-- str(timedelta(seconds=n)) for an integer n, following CPython
datetime.timedelta.__str__: normalise to days plus a nonnegative
seconds-in-day remainder with floor division, render "H:MM:SS" with
unpadded hours, and prefix "D day, "/"D days, " when days is nonzero. -/
def timedeltaStr (n : Int) : String :=
  let days : Int := Int.fdiv n 86400
  let r : Nat := (Int.fmod n 86400).toNat
  let hms := toString (r / 3600) ++ ":" ++ pad2 (r % 3600 / 60) ++ ":"
    ++ pad2 (r % 60)
  if days = 0 then hms
  else toString days ++ (if days.natAbs = 1 then " day, " else " days, ") ++ hms

/-- Python str.zfill(8): left-pad with zeros to length 8, keeping a
leading sign in front of the padding. -/
def zfill8 (s : String) : String :=
  if 8 ≤ s.length then s
  else if s.data.head? = some '-' ∨ s.data.head? = some '+' then
    String.mk (s.data.take 1 ++ List.replicate (8 - s.length) '0' ++ s.data.drop 1)
  else
    String.mk (List.replicate (8 - s.length) '0' ++ s.data)

/-- The argument of hhmmss_from_seconds: a Python int, a Python float
(idealised by its exact rational value), or a value of any other type. -/
inductive SecArg where
  | int : Int → SecArg
  | float : ℚ → SecArg
  | nonNumeric : SecArg

/-- Python int() on the exact value of a float: truncation toward zero. -/
def pyIntOfRat (q : ℚ) : Int :=
  if 0 ≤ q then Int.floor q else Int.ceil q

/-- gcexport.hhmmss_from_seconds: str(timedelta(seconds=int(sec))).zfill(8)
for numeric arguments, the string "0.000" otherwise. -/
def hhmmss_from_seconds : SecArg → String
  | .int n => zfill8 (timedeltaStr n)
  | .float q => zfill8 (timedeltaStr (pyIntOfRat q))
  | .nonNumeric => "0.000"

/-- Raw bytes of a file or HTTP body. -/
abbrev Bytes := List Nat

/-- An HTTP response: status code and body. -/
structure HttpResp where
  status : Nat
  content : Bytes

/-- requests.Response.ok: true when the status code is below 400. -/
def HttpResp.ok (r : HttpResp) : Bool := r.status < 400

/-- The filesystem: a mapping from paths to file contents. -/
abbrev FS := List (String × Bytes)

/-- Path.exists(). -/
def fsExists (fs : FS) (p : String) : Bool := (alookup p fs).isSome

/-- Delete a path (Path.unlink). -/
def fsRemove (fs : FS) (p : String) : FS := fs.filter (fun e => e.1 != p)

/-- Path.rename: move the contents of old to new (old always exists in the
modelled flow; a missing old leaves the filesystem unchanged). -/
def fsRename (fs : FS) (old new_ : String) : FS :=
  match alookup old fs with
  | none => fs
  | some content => aset new_ content (fsRemove fs old)

/-- Python exception classes raised by the modelled code. -/
inductive PyErr where
  | valueError (msg : String)
  | keyError (key : String)
  | typeError (msg : String)
  | httpError (msg : String)
  | runtimeError (msg : String)
  | attributeError (msg : String)
deriving DecidableEq

/-- Python str() on JSON scalars (container rendering abbreviated; the
source only formats scalar ids this way). -/
def pyStr : JVal → String
  | .jnull => "None"
  | .jbool true => "True"
  | .jbool false => "False"
  | .jnum n => toString n
  | .jstr s => s
  | .jobj _ => "{}"
  | .jarr _ => "[]"

/-- Characters kept by utilities.get_valid_filename: the regex [-\w.] with
\w modelled as ASCII alphanumerics plus underscore. -/
def validFilenameChar (c : Char) : Bool :=
  c.isAlphanum || c = '-' || c = '_' || c = '.'

/-- Python str.strip(): drop whitespace from both ends. -/
def pyStrip (l : List Char) : List Char :=
  ((l.dropWhile Char.isWhitespace).reverse.dropWhile Char.isWhitespace).reverse

/-- utilities.get_valid_filename: strip surrounding whitespace, turn spaces
into underscores, drop every character outside [-\w.]. -/
def get_valid_filename (s : String) : String :=
  String.mk (((pyStrip s.data).map (fun c => if c = ' ' then '_' else c)).filter
    validFilenameChar)

/-- Split a reversed file name at its first '.' (i.e. the name's last dot):
the reversed extension and the reversed stem, or none when no dot occurs. -/
def splitAtFirstDot : List Char → Option (List Char × List Char)
  | [] => none
  | c :: rest =>
    if c = '.' then some ([], rest)
    else
      match splitAtFirstDot rest with
      | none => none
      | some (p, q) => some (c :: p, q)

/-- pathlib.PurePath.suffix: the extension of the final path component,
including its dot; empty for names without a dot, with only a leading dot,
or with a trailing dot. -/
def pathSuffix (s : String) : String :=
  let nmRev := s.data.reverse.takeWhile (fun c => c != '/')
  match splitAtFirstDot nmRev with
  | none => ""
  | some (extRev, stemRev) =>
    if extRev.isEmpty then ""
    else if stemRev.isEmpty then ""
    else String.mk ('.' :: extRev.reverse)

/-- pathlib.PurePath.with_suffix: drop the current suffix and append the
given one. -/
def withSuffix (p : String) (suf : String) : String :=
  String.mk (p.data.take (p.data.length - (pathSuffix p).length)) ++ suf

/-- Environment of GarminConnect.download_activity: the settings.yaml url
table (the yaml file is not part of the sources, so urls are opaque), a GET
function (the constant params full=true are elided from the key), and the
decoded entries of a zip archive (the archive is assumed well-formed, as
zipfile failures are outside every claim). -/
structure DlEnv where
  urls : String → String
  http : String → HttpResp
  unzip : Bytes → List (String × Bytes)

/-- The formats accepted by download_activity (source line 841). -/
def allowed_formats : List String := ["ORIGINAL", "GPX", "JSON"]

/-- The target path f"{stem}_{activity_id}.{format}" under the export dir,
with .zip for ORIGINAL; the stem is get_valid_filename(start_time_locale). -/
def download_filename_of (export_dir : String) (activity_id : String)
    (start_time_locale : String) (format : String) : String :=
  if ¬ format = "ORIGINAL" then
    export_dir ++ "/" ++ get_valid_filename start_time_locale ++ "_"
      ++ activity_id ++ "." ++ format
  else
    export_dir ++ "/" ++ get_valid_filename start_time_locale ++ "_"
      ++ activity_id ++ ".zip"

/-- The tail of download_activity after raw_data is determined: write the
bytes, then for ORIGINAL either unzip a non-empty archive (extract each
entry and rename it to the target stem with the entry's own extension) or
delete the freshly written zero-byte file; returns the new filesystem and
the Python return value True. -/
def finishDownload (env : DlEnv) (export_dir : String) (fs : FS)
    (download_filename : String) (format : String) (raw_data : Bytes) :
    FS × Bool :=
  let fs1 := aset download_filename raw_data fs
  if format = "ORIGINAL" then
    if 0 < raw_data.length then
      ((env.unzip raw_data).foldl (fun acc entry =>
        let unzipped_name := export_dir ++ "/" ++ entry.1
        fsRename (aset unzipped_name entry.2 acc) unzipped_name
          (withSuffix download_filename (pathSuffix unzipped_name))) fs1,
      true)
    else
      (fsRemove fs1 download_filename, true)
  else
    (fs1, true)

/-- GarminConnect.download_activity.  Returns the list of GET urls issued
(in order) alongside the Except outcome: the raised exception, or the new
filesystem and the Python return value.  Notes tied to the source:
format check before anything else; activity_details["activityId"] raises
KeyError when absent; an existing target file returns False with no
request; 404 on ORIGINAL substitutes empty bytes; any other non-ok status
raises; the JSON branch passes the detail dict itself to
Path.write_bytes, which raises TypeError before creating any file. -/
def download_activity (env : DlEnv) (export_dir : String) (fs : FS)
    (activity_details : JVal) (start_time_locale : String) (format : String) :
    List String × Except PyErr (FS × Bool) :=
  if ¬ format ∈ allowed_formats then
    ([], .error (.valueError ("format " ++ format ++ " not recognised")))
  else
    match jlookup activity_details "activityId" with
    | none => ([], .error (.keyError "activityId"))
    | some idv =>
      let activity_id := pyStr idv
      let download_url := env.urls (format.toUpper ++ "_ACTIVITY") ++ "/" ++ activity_id
      let download_filename :=
        download_filename_of export_dir activity_id start_time_locale format
      if fsExists fs download_filename then ([], .ok (fs, false))
      else if ¬ format = "JSON" then
        let resp := env.http download_url
        if resp.status = 404 ∧ format = "ORIGINAL" then
          ([download_url],
            .ok (finishDownload env export_dir fs download_filename format []))
        else if ¬ resp.ok then
          ([download_url], .error (.httpError ("Failed. Got an HTTP error "
            ++ toString resp.status ++ " for " ++ download_url)))
        else
          ([download_url],
            .ok (finishDownload env export_dir fs download_filename format resp.content))
      else
        ([], .error (.typeError "a bytes-like object is required"))

/-- An environment whose GET always answers with the given status and an
empty body, with opaque urls and an empty archive decode. -/
def envConst (status : Nat) : DlEnv :=
  ⟨fun _ => "U", fun _ => ⟨status, []⟩, fun _ => []⟩

/-- gcexport MAX_TRIES. -/
abbrev MAX_TRIES : Nat := 3

/-- The retry loop of GarminConnect.get_activity_details: responses i is
the parsed JSON of the (i+1)-th GET of the activity url; one GET is issued
per iteration.  The loop accepts a response as soon as
details.get("summaryDTO") is not None (dict.get yields None both for a
missing key and for a stored JSON null); with the fuel exhausted (the
for-else), it raises RuntimeError.  The result carries the accepted
response and the number of GETs issued. -/
def gadLoop (activity_id : String) (responses : Nat → JVal) :
    Nat → Nat → Except PyErr (JVal × Nat)
  | _, 0 => .error (.runtimeError ("Did not get summaryDTO after "
      ++ toString MAX_TRIES ++ " tries for activityId " ++ activity_id))
  | attempt, fuel + 1 =>
    if isNull (jget (responses attempt) "summaryDTO") = false then
      .ok (responses attempt, attempt + 1)
    else
      gadLoop activity_id responses (attempt + 1) fuel

/-- GarminConnect.get_activity_details: for tries in range(MAX_TRIES). -/
def get_activity_details (activity_id : String) (responses : Nat → JVal) :
    Except PyErr (JVal × Nat) :=
  gadLoop activity_id responses 0 MAX_TRIES

/-- gcexport LIMIT_MAXIMUM: the maximum listing page size. -/
abbrev LIMIT_MAXIMUM : Nat := 1000

/-- The while loop of GarminConnect.get_activities, restricted to its
paging skeleton.  The listing service is modelled as the full newest-first
activity list (activities abstracted to markers); a listing request with
params (start, limit) answers (allActs.drop start).take limit.  Returns the
(start, limit) pairs of the requests issued, and the activities in
processing order (each page iterated via reversed(...)).  The loop advances
downloaded_n by num_to_download ≥ 1 per iteration, so fuel total_n makes
the fuelled recursion exact. -/
def pagerLoop (allActs : List Nat) (total_n : Nat) :
    Nat → Nat → List (Nat × Nat) × List Nat
  | _, 0 => ([], [])
  | downloaded_n, fuel + 1 =>
    if downloaded_n < total_n then
      let num_to_download :=
        if LIMIT_MAXIMUM < total_n - downloaded_n then LIMIT_MAXIMUM
        else total_n - downloaded_n
      let page := (allActs.drop downloaded_n).take num_to_download
      let rest := pagerLoop allActs total_n (downloaded_n + num_to_download) fuel
      ((downloaded_n, num_to_download) :: rest.1, page.reverse ++ rest.2)
    else ([], [])

/-- The (start, limit) pairs of the listing requests of get_activities. -/
def get_activities_requests (allActs : List Nat) (total_n : Nat) :
    List (Nat × Nat) :=
  (pagerLoop allActs total_n 0 total_n).1

/-- The activities of get_activities in processing order. -/
def get_activities_order (allActs : List Nat) (total_n : Nat) : List Nat :=
  (pagerLoop allActs total_n 0 total_n).2

/-- Modelled from the spec: "repeatedly issue listing requests with
(offset, limit) where limit = min(remaining, MAX_PAGE_SIZE), until offset
reaches the target total" — the request stream exactly as the spec words
it, for comparison with the code's stream. -/
def pagerRequestsSpecWords (total : Nat) : Nat → Nat → List (Nat × Nat)
  | _, 0 => []
  | offset, fuel + 1 =>
    if offset < total then
      (offset, min (total - offset) LIMIT_MAXIMUM)
        :: pagerRequestsSpecWords total
            (offset + min (total - offset) LIMIT_MAXIMUM) fuel
    else []

/-- Hashable Python scalars: the values usable as dict keys (a dict or
list key raises TypeError: unhashable). -/
inductive Scalar where
  | snull
  | sbool (b : Bool)
  | snum (n : Int)
  | sstr (s : String)
deriving DecidableEq

/-- The scalar view of a JSON value, none for containers. -/
def toScalar : JVal → Option Scalar
  | .jnull => some .snull
  | .jbool b => some (.sbool b)
  | .jnum n => some (.snum n)
  | .jstr s => some (.sstr s)
  | .jobj _ => none
  | .jarr _ => none

/-- Python x.get(k): the stored value, with a missing key and a stored JSON
null both yielding None (modelled jnull); AttributeError when x is not a
dict — in particular when x is None. -/
def pyGetE (x : JVal) (k : String) : Except PyErr JVal :=
  match x with
  | .jobj fields => .ok ((alookup k fields).getD .jnull)
  | _ => .error (.attributeError "get")

/-- Python v != '0' negated: true exactly for the string "0". -/
def isStr0 : JVal → Bool
  | .jstr s => s = "0"
  | _ => false

/-- Environment of GarminConnect.extract_device: GET urls["DEVICE"] +
str(id) answered as (response.ok, parsed JSON body). -/
structure DevEnv where
  device : String → Bool × JVal

/-- The session-scoped device cache device_dict: Python stores None or a
display string under the installation id. -/
abbrev DeviceDict := List (Scalar × Option String)

/-- GarminConnect.extract_device.  Mirrors the source flow: return None
without touching the cache when metadataDTO or the installation id is
absent; on a cache miss first cache None, then look at
deviceMetaDataDTO.deviceId (metadata.get(...).get(...) raises
AttributeError when deviceMetaDataDTO is absent or null); fetch device
detail only when deviceId is missing or truthy-and-not-"0"; an HTTP failure
caches the synthetic "device-id:<id>" placeholder, a response carrying
productDisplayName caches productDisplayName + " " + versionString (the
versionString index may raise KeyError; non-string fields would raise
TypeError at the concatenation), and a response without productDisplayName
leaves the cached None. -/
def extract_device (env : DevEnv) (device_dict : DeviceDict)
    (activity_details : JVal) : Except PyErr (DeviceDict × Option String) :=
  if jmem "metadataDTO" activity_details = false then
    .ok (device_dict, none)
  else
    let metadata := jget activity_details "metadataDTO"
    match pyGetE metadata "deviceApplicationInstallationId" with
    | .error e => .error e
    | .ok dai =>
      if isNull dai then .ok (device_dict, none)
      else
        match toScalar dai with
        | none => .error (.typeError "unhashable type")
        | some key =>
          match alookup key device_dict with
          | some v => .ok (device_dict, v)
          | none =>
            let cache1 := aset key (none : Option String) device_dict
            match pyGetE metadata "deviceMetaDataDTO" with
            | .error e => .error e
            | .ok device_meta =>
              match pyGetE device_meta "deviceId" with
              | .error e => .error e
              | .ok device_id =>
                if (!(jmem "deviceId" device_meta)
                    || (truthy device_id && !(isStr0 device_id))) then
                  let resp := env.device (pyStr dai)
                  if resp.1 = false then
                    .ok (aset key (some ("device-id:" ++ pyStr dai)) cache1,
                      some ("device-id:" ++ pyStr dai))
                  else
                    let device_details := resp.2
                    if jmem "productDisplayName" device_details then
                      match jlookup device_details "productDisplayName" with
                      | some (.jstr p) =>
                        match jlookup device_details "versionString" with
                        | none => .error (.keyError "versionString")
                        | some (.jstr v) =>
                          .ok (aset key (some (p ++ " " ++ v)) cache1,
                            some (p ++ " " ++ v))
                        | some _ => .error (.typeError "can only concatenate str")
                      | _ => .error (.typeError "can only concatenate str")
                    else
                      .ok (cache1, none)
                else
                  .ok (cache1, none)

/-- A device environment whose GET always fails. -/
def devEnvFail : DevEnv := ⟨fun _ => (false, .jnull)⟩

theorem alookup_nil {κ α : Type} [DecidableEq κ] (k : κ) :
    alookup (α := α) k [] = none := rfl

/-- If a lookup in an object succeeds then the field list is nonempty,
hence the object is truthy. -/
theorem truthy_of_jlookup_isSome (x : JVal) (k : String)
    (h : (jlookup x k).isSome = true) : truthy x = true := by
  cases x with
  | jobj fields =>
    cases fields with
    | nil => simp [jlookup, alookup] at h
    | cons hd tl => simp [truthy, List.isEmpty]
  | jnull => simp [jlookup] at h
  | jbool b => simp [jlookup] at h
  | jnum n => simp [jlookup] at h
  | jstr s => simp [jlookup] at h
  | jarr l => simp [jlookup] at h

/-- absent_or_null collapses to the truthiness of the defaulted lookup:
absent_or_null e x is false exactly when x[e] exists and is truthy. -/
theorem absent_or_null_eq (element : String) (act : JVal) :
    absent_or_null element act = !truthy (jget act element) := by
  unfold absent_or_null
  rcases hm : (jlookup act element).isSome with hfalse | htrue
  · have hget : jget act element = .jnull := by
      unfold jget
      rcases h : jlookup act element with _ | v
      · rfl
      · rw [h] at hm; simp at hm
    rw [hget]
    simp [jmem, hm, truthy]
  · have htr : truthy act = true := truthy_of_jlookup_isSome act element hm
    simp only [jmem, hm, htr, jget, Bool.not_true, Bool.false_eq_true, if_false]
    split <;> simp_all

/-- C1: from_activities_or_detail returns detail[detail_container][element]
exactly when detail[detail_container] is present and truthy and
detail[detail_container][element] is present and truthy (falsy values count
as absent); otherwise it returns act[element] when that is present and
truthy; otherwise the null sentinel. -/
theorem from_activities_or_detail_spec (element : String) (act detail : JVal)
    (detail_container : String) :
    from_activities_or_detail element act detail detail_container =
      (if truthy (jget detail detail_container)
          && truthy (jget (jget detail detail_container) element) then
        jget (jget detail detail_container) element
      else if truthy (jget act element) then jget act element
      else .jnull) := by
  simp only [from_activities_or_detail, absent_or_null_eq]
  cases hA : truthy (jget detail detail_container) <;>
    cases hB : truthy (jget (jget detail detail_container) element) <;>
      cases hC : truthy (jget act element) <;> simp [hA, hB, hC]

theorem pad2_length (n : Nat) : (pad2 n).length = 2 := rfl

theorem pad2_data_length (n : Nat) : (pad2 n).data.length = 2 := rfl

theorem toString_lt10 (n : Nat) (h : n < 10) :
    toString n = String.mk [Nat.digitChar n] := by
  interval_cases n <;> decide

theorem pad2_lt10 (n : Nat) (h : n < 10) :
    pad2 n = String.mk ['0', Nat.digitChar n] := by
  interval_cases n <;> decide

theorem pad2_eq_toString (n : Nat) (h1 : 10 ≤ n) (h2 : n < 24) :
    pad2 n = toString n := by
  interval_cases n <;> decide

theorem digitChar_ne_dash (n : Nat) (h : n < 10) : ¬ Nat.digitChar n = '-' := by
  interval_cases n <;> decide

theorem digitChar_ne_plus (n : Nat) (h : n < 10) : ¬ Nat.digitChar n = '+' := by
  interval_cases n <;> decide

theorem zfill8_of_length_ge (s : String) (h : 8 ≤ s.length) : zfill8 s = s := by
  unfold zfill8
  rw [if_pos h]

theorem zfill8_seven (c : Char) (l : List Char) (hc1 : ¬ c = '-') (hc2 : ¬ c = '+')
    (h : (String.mk (c :: l)).length = 7) :
    zfill8 (String.mk (c :: l)) = String.mk ('0' :: c :: l) := by
  unfold zfill8
  rw [h]
  rw [if_neg (by norm_num)]
  have hd : (String.mk (c :: l)).data = c :: l := rfl
  rw [hd]
  rw [if_neg (by simp [hc1, hc2])]
  rfl

theorem zfill8_hms (hh mm ss : Nat) (h : hh < 24) :
    zfill8 (toString hh ++ ":" ++ pad2 mm ++ ":" ++ pad2 ss) =
      pad2 hh ++ ":" ++ pad2 mm ++ ":" ++ pad2 ss := by
  by_cases h10 : hh < 10
  · rw [toString_lt10 hh h10, pad2_lt10 hh h10]
    have hstr : String.mk [Nat.digitChar hh] ++ ":" ++ pad2 mm ++ ":" ++ pad2 ss =
        String.mk (Nat.digitChar hh :: ':' :: ((pad2 mm).data
          ++ ':' :: (pad2 ss).data)) := rfl
    rw [hstr]
    have hlen : (String.mk (Nat.digitChar hh :: ':' :: ((pad2 mm).data
        ++ ':' :: (pad2 ss).data))).length = 7 := by
      simp [String.length_mk, pad2_data_length, pad2_length]
    rw [zfill8_seven _ _ (digitChar_ne_dash hh h10) (digitChar_ne_plus hh h10) hlen]
    rfl
  · have h10' : 10 ≤ hh := Nat.le_of_not_lt h10
    rw [← pad2_eq_toString hh h10' h]
    apply zfill8_of_length_ge
    have hc : (":" : String).length = 1 := rfl
    simp [String.length_append, pad2_length, hc]

theorem toDigitsCore_length_mono (b : Nat) (fuel : Nat) :
    ∀ (n : Nat) (l : List Char), l.length ≤ (Nat.toDigitsCore b fuel n l).length := by
  induction fuel with
  | zero => intro n l; simp [Nat.toDigitsCore]
  | succ f ih =>
    intro n l
    simp only [Nat.toDigitsCore]
    split
    · simp
    · exact le_trans (by simp) (ih _ _)

theorem one_le_natRepr_length (m : Nat) : 1 ≤ (Nat.repr m).length := by
  show 1 ≤ (Nat.toDigits 10 m).asString.length
  have h1 : (Nat.toDigits 10 m).asString.length = (Nat.toDigits 10 m).length := rfl
  rw [h1]
  unfold Nat.toDigits
  simp only [Nat.toDigitsCore]
  split
  · simp
  · have h2 := toDigitsCore_length_mono 10 m (m / 10) [Nat.digitChar (m % 10)]
    simpa using h2

theorem one_le_natToString_length (m : Nat) : 1 ≤ (toString m).length :=
  one_le_natRepr_length m

theorem one_le_intToString_length (k : Int) : 1 ≤ (toString k).length := by
  cases k with
  | ofNat m => exact one_le_natToString_length m
  | negSucc m =>
    show 1 ≤ ("-" ++ toString (m + 1)).length
    rw [String.length_append]
    have h1 : ("-" : String).length = 1 := rfl
    omega

/-- C10: hhmmss_from_seconds is total: non-numeric arguments give "0.000";
a float behaves as its int() truncation; for 0 ≤ n < 86400 the result is the
zero-padded HH:MM:SS rendering of n seconds; for n ≥ 86400 the result starts
with the day count followed by " day", so it is not an HH:MM:SS string. -/
theorem hhmmss_from_seconds_spec :
    hhmmss_from_seconds .nonNumeric = "0.000" ∧
    (∀ q : ℚ, hhmmss_from_seconds (.float q) = hhmmss_from_seconds (.int (pyIntOfRat q))) ∧
    (∀ n : Int, 0 ≤ n → n < 86400 →
      hhmmss_from_seconds (.int n) =
        pad2 (n.toNat / 3600) ++ ":" ++ pad2 (n.toNat % 3600 / 60) ++ ":"
          ++ pad2 (n.toNat % 60)) ∧
    (∀ n : Int, 86400 ≤ n →
      ∃ rest : String,
        hhmmss_from_seconds (.int n) =
          toString (Int.fdiv n 86400) ++ " day" ++ rest) := by
  refine ⟨rfl, fun q => rfl, ?_, ?_⟩
  · intro n h0 h1
    show zfill8 (timedeltaStr n) = _
    simp only [timedeltaStr]
    rw [Int.fdiv_eq_ediv n (by norm_num), Int.fmod_eq_emod n (by norm_num)]
    rw [if_pos (by omega : n / 86400 = 0)]
    have hr : (n % 86400).toNat = n.toNat := by omega
    rw [hr]
    exact zfill8_hms (n.toNat / 3600) _ _ (by omega)
  · intro n h
    have hfd : Int.fdiv n 86400 = n / 86400 := Int.fdiv_eq_ediv n (by norm_num)
    refine ⟨(if (Int.fdiv n 86400).natAbs = 1 then ", " else "s, ")
      ++ (toString ((Int.fmod n 86400).toNat / 3600) ++ ":"
        ++ pad2 ((Int.fmod n 86400).toNat % 3600 / 60) ++ ":"
        ++ pad2 ((Int.fmod n 86400).toNat % 60)), ?_⟩
    show zfill8 (timedeltaStr n) = _
    simp only [timedeltaStr]
    rw [if_neg (by rw [hfd]; omega)]
    have hbig : 8 ≤ (toString (Int.fdiv n 86400)
        ++ (if (Int.fdiv n 86400).natAbs = 1 then " day, " else " days, ")
        ++ (toString ((Int.fmod n 86400).toNat / 3600) ++ ":"
          ++ pad2 ((Int.fmod n 86400).toNat % 3600 / 60) ++ ":"
          ++ pad2 ((Int.fmod n 86400).toNat % 60))).length := by
      have ha := one_le_intToString_length (Int.fdiv n 86400)
      have hb := one_le_natToString_length ((Int.fmod n 86400).toNat / 3600)
      have hc : (":" : String).length = 1 := rfl
      have hd1 : (" day, " : String).length = 6 := rfl
      have hd2 : (" days, " : String).length = 7 := rfl
      by_cases hone : (Int.fdiv n 86400).natAbs = 1 <;>
        simp only [hone, if_pos, if_neg, if_true, if_false, reduceIte,
          String.length_append, pad2_length, hc, hd1, hd2] <;> omega
    rw [zfill8_of_length_ge _ hbig]
    by_cases hone : (Int.fdiv n 86400).natAbs = 1 <;> simp only [hone, reduceIte]
    · have hsplit : (" day, " : String) = " day" ++ ", " := rfl
      rw [hsplit]
      simp only [String.append_assoc]
    · have hsplit : (" days, " : String) = " day" ++ "s, " := rfl
      rw [hsplit]
      simp only [String.append_assoc]

/-- Witness for hhmmss_from_seconds_spec at 3661 seconds and 90000 seconds. -/
theorem hhmmss_from_seconds_spec_witness :
    (hhmmss_from_seconds (.int 3661) =
      pad2 ((3661 : Int).toNat / 3600) ++ ":" ++ pad2 ((3661 : Int).toNat % 3600 / 60)
        ++ ":" ++ pad2 ((3661 : Int).toNat % 60)) ∧
    ∃ rest : String,
      hhmmss_from_seconds (.int 90000) =
        toString (Int.fdiv 90000 86400) ++ " day" ++ rest :=
  ⟨hhmmss_from_seconds_spec.2.2.1 3661 (by decide) (by decide),
   hhmmss_from_seconds_spec.2.2.2 90000 (by decide)⟩

/-- C2 counterexample: the claim covers every export format, but for TCX
with the target file already on disk download_activity raises the
unrecognized-format ValueError before the existence check instead of
returning: the target "e/s_5.TCX" exists, yet the call does not return
([], ok (fs, false)). -/
theorem download_activity_tcx_existing_raises :
    fsExists [("e/s_5.TCX", [])] (download_filename_of "e" "5" "s" "TCX") = true ∧
    download_activity (envConst 200) "e" [("e/s_5.TCX", [])]
      (.jobj [("activityId", .jnum 5)]) "s" "TCX"
      = ([], .error (.valueError "format TCX not recognised")) :=
  ⟨rfl, rfl⟩

/-- C2 amended: for every environment and filesystem, and for every format
the downloader accepts (ORIGINAL, GPX, JSON — not TCX, which raises before
the existence check), when the computed target file already exists
download_activity issues no HTTP request and returns False leaving the
filesystem untouched (existence alone is the idempotence marker; no
checksum or freshness check). -/
theorem download_activity_skip_existing (env : DlEnv) (export_dir : String)
    (fs : FS) (activity_details : JVal) (start_time_locale : String)
    (format : String) (hfmt : format ∈ allowed_formats) (idv : JVal)
    (hid : jlookup activity_details "activityId" = some idv)
    (hex : fsExists fs
      (download_filename_of export_dir (pyStr idv) start_time_locale format) = true) :
    download_activity env export_dir fs activity_details start_time_locale format
      = ([], .ok (fs, false)) := by
  unfold download_activity
  rw [if_neg (not_not_intro hfmt)]
  rw [hid]
  dsimp only
  rw [if_pos hex]

/-- Witness for download_activity_skip_existing: a GPX target already on
disk is skipped. -/
theorem download_activity_skip_existing_witness :
    download_activity (envConst 200) "e" [("e/s_5.GPX", [])]
      (.jobj [("activityId", .jnum 5)]) "s" "GPX"
      = ([], .ok ([("e/s_5.GPX", [])], false)) :=
  download_activity_skip_existing (envConst 200) "e" [("e/s_5.GPX", [])]
    (.jobj [("activityId", .jnum 5)]) "s" "GPX" (by decide) (.jnum 5) rfl rfl

/-- C4: on HTTP 404 for an ORIGINAL download the code does not raise and
returns True after one request, but the zero-byte placeholder it writes is
immediately unlinked by the empty-zip branch, so afterwards the target file
does not exist and a later run will re-fetch it (contradicting the source's
own comment "Write an empty file to prevent redownloading it"). -/
theorem download_activity_404_original_unlinked :
    download_activity (envConst 404) "e" [] (.jobj [("activityId", .jnum 7)])
      "s" "ORIGINAL" = (["U/7"], .ok ([], true)) ∧
    fsExists ([] : FS) (download_filename_of "e" "7" "s" "ORIGINAL") = false :=
  ⟨rfl, rfl⟩

/-- C6 counterexample: the claim admits TCX, but download_activity raises
the unrecognized-format error for format "TCX". -/
theorem download_activity_rejects_tcx :
    download_activity (envConst 200) "e" [] (.jobj [("activityId", .jnum 5)])
      "s" "TCX" = ([], .error (.valueError "format TCX not recognised")) := rfl

/-- C6 amended: download_activity accepts exactly the formats ORIGINAL, GPX
and JSON (TCX is not among them), and raises the unrecognized-export-format
error exactly for format tags outside that list. -/
theorem download_activity_format_check (env : DlEnv) (export_dir : String)
    (fs : FS) (activity_details : JVal) (start_time_locale : String)
    (format : String) :
    (¬ format ∈ allowed_formats →
      download_activity env export_dir fs activity_details start_time_locale format
        = ([], .error (.valueError ("format " ++ format ++ " not recognised")))) ∧
    (format ∈ allowed_formats →
      ∀ msg : String,
        (download_activity env export_dir fs activity_details start_time_locale
          format).2 ≠ .error (.valueError msg)) := by
  constructor
  · intro h
    unfold download_activity
    rw [if_pos h]
  · intro h msg
    unfold download_activity
    rw [if_neg (not_not_intro h)]
    cases hid : jlookup activity_details "activityId" with
    | none => simp
    | some idv =>
      dsimp only
      split
      · simp
      · split
        · split
          · simp [finishDownload]
          · split
            · simp
            · simp [finishDownload]
        · simp

/-- Witness for download_activity_format_check: an unknown format tag is
rejected with the unrecognized-format error. -/
theorem download_activity_format_check_witness :
    download_activity (envConst 200) "e" [] (.jobj [("activityId", .jnum 5)])
      "s" "XXX" = ([], .error (.valueError ("format " ++ "XXX" ++ " not recognised"))) :=
  (download_activity_format_check (envConst 200) "e" []
    (.jobj [("activityId", .jnum 5)]) "s" "XXX").1 (by decide)

/-- C7: with format JSON and no pre-existing target file the code issues no
HTTP request, but instead of persisting the detail object it raises
TypeError, because the detail dict itself is passed to Path.write_bytes;
nothing is written. -/
theorem download_activity_json_type_error :
    download_activity (envConst 200) "e" [] (.jobj [("activityId", .jnum 1)])
      "s" "JSON" = ([], .error (.typeError "a bytes-like object is required")) := rfl

theorem gadLoop_step (aid : String) (rs : Nat → JVal) (attempt fuel : Nat) :
    gadLoop aid rs attempt (fuel + 1)
      = if isNull (jget (rs attempt) "summaryDTO") = false then
          .ok (rs attempt, attempt + 1)
        else gadLoop aid rs (attempt + 1) fuel := rfl

/-- C3 counterexample: a response whose summary container is present but
empty (hence falsy, not "non-empty") is accepted on the very first attempt;
the fetcher does not retry or fail as the claim requires for responses
without a non-empty summary container. -/
theorem get_activity_details_accepts_empty_summary :
    get_activity_details "123" (fun _ => .jobj [("summaryDTO", .jobj [])])
      = .ok (.jobj [("summaryDTO", .jobj [])], 1) ∧
    truthy (jget (.jobj [("summaryDTO", .jobj [])]) "summaryDTO") = false :=
  ⟨rfl, rfl⟩

/-- C3 amended: get_activity_details issues at most MAX_TRIES (3) GETs and
returns the first response whose summaryDTO entry is present and not null
(an empty-but-present container is accepted); if all three responses lack
summaryDTO or carry null there, it raises the fatal RuntimeError. -/
theorem get_activity_details_spec (aid : String) (responses : Nat → JVal) :
    (∀ d n, get_activity_details aid responses = .ok (d, n) → n ≤ MAX_TRIES) ∧
    (isNull (jget (responses 0) "summaryDTO") = false →
      get_activity_details aid responses = .ok (responses 0, 1)) ∧
    (isNull (jget (responses 0) "summaryDTO") = true →
      isNull (jget (responses 1) "summaryDTO") = false →
      get_activity_details aid responses = .ok (responses 1, 2)) ∧
    (isNull (jget (responses 0) "summaryDTO") = true →
      isNull (jget (responses 1) "summaryDTO") = true →
      isNull (jget (responses 2) "summaryDTO") = false →
      get_activity_details aid responses = .ok (responses 2, 3)) ∧
    (isNull (jget (responses 0) "summaryDTO") = true →
      isNull (jget (responses 1) "summaryDTO") = true →
      isNull (jget (responses 2) "summaryDTO") = true →
      get_activity_details aid responses
        = .error (.runtimeError ("Did not get summaryDTO after "
            ++ toString MAX_TRIES ++ " tries for activityId " ++ aid))) := by
  have hsplit : get_activity_details aid responses = gadLoop aid responses 0 3 := rfl
  refine ⟨?_, ?_, ?_, ?_, ?_⟩
  · intro d n h
    rw [hsplit, show (3 : Nat) = 2 + 1 from rfl, gadLoop_step] at h
    split at h
    · cases h; decide
    · rw [show (2 : Nat) = 1 + 1 from rfl, gadLoop_step] at h
      split at h
      · cases h; decide
      · rw [show (1 : Nat) = 0 + 1 from rfl, gadLoop_step] at h
        split at h
        · cases h; decide
        · simp [gadLoop] at h
  · intro h0
    rw [hsplit, show (3 : Nat) = 2 + 1 from rfl, gadLoop_step, if_pos h0]
  · intro h0 h1
    rw [hsplit, show (3 : Nat) = 2 + 1 from rfl, gadLoop_step,
      if_neg (by simp [h0]), show (2 : Nat) = 1 + 1 from rfl, gadLoop_step,
      if_pos h1]
  · intro h0 h1 h2
    rw [hsplit, show (3 : Nat) = 2 + 1 from rfl, gadLoop_step,
      if_neg (by simp [h0]), show (2 : Nat) = 1 + 1 from rfl, gadLoop_step,
      if_neg (by simp [h1]), show (1 : Nat) = 0 + 1 from rfl, gadLoop_step,
      if_pos h2]
  · intro h0 h1 h2
    rw [hsplit, show (3 : Nat) = 2 + 1 from rfl, gadLoop_step,
      if_neg (by simp [h0]), show (2 : Nat) = 1 + 1 from rfl, gadLoop_step,
      if_neg (by simp [h1]), show (1 : Nat) = 0 + 1 from rfl, gadLoop_step,
      if_neg (by simp [h2])]
    rfl

/-- Witness for get_activity_details_spec: two empty-summary responses
followed by a valid one succeed on the third GET; three empty responses
raise the fatal error. -/
theorem get_activity_details_spec_witness :
    get_activity_details "a" (fun i => if i = 2 then .jobj [("summaryDTO", .jnum 1)]
        else .jobj [])
      = .ok (.jobj [("summaryDTO", .jnum 1)], 3) ∧
    get_activity_details "a" (fun _ => .jobj [])
      = .error (.runtimeError ("Did not get summaryDTO after "
          ++ toString MAX_TRIES ++ " tries for activityId " ++ "a")) :=
  ⟨(get_activity_details_spec "a" (fun i => if i = 2 then .jobj [("summaryDTO", .jnum 1)]
      else .jobj [])).2.2.2.1 (by decide) (by decide) (by decide),
   (get_activity_details_spec "a" (fun _ => .jobj [])).2.2.2.2
      (by decide) (by decide) (by decide)⟩

theorem pagerLoop_done (allActs : List Nat) (total d fuel : Nat)
    (h : ¬ d < total) : pagerLoop allActs total d fuel = ([], []) := by
  cases fuel with
  | zero => rfl
  | succ f =>
    simp only [pagerLoop]
    rw [if_neg h]

theorem pagerLoop_requests_eq (allActs : List Nat) (total : Nat) :
    ∀ fuel d, (pagerLoop allActs total d fuel).1
      = pagerRequestsSpecWords total d fuel := by
  intro fuel
  induction fuel with
  | zero => intro d; rfl
  | succ f ih =>
    intro d
    simp only [pagerLoop, pagerRequestsSpecWords]
    split
    · have hmin : (if LIMIT_MAXIMUM < total - d then LIMIT_MAXIMUM
          else total - d) = min (total - d) LIMIT_MAXIMUM := by
        simp only [LIMIT_MAXIMUM, Nat.min_def]
        split <;> split <;> omega
      rw [hmin, ih]
    · rfl

theorem pagerLoop_order_join (allActs : List Nat) (total : Nat) :
    ∀ fuel d, (pagerLoop allActs total d fuel).2
      = ((pagerLoop allActs total d fuel).1.map
          (fun p => ((allActs.drop p.1).take p.2).reverse)).flatten := by
  intro fuel
  induction fuel with
  | zero => intro d; rfl
  | succ f ih =>
    intro d
    simp only [pagerLoop]
    split
    · simp only [List.map_cons, List.flatten_cons]
      rw [ih]
    · rfl

theorem pager_single_page (allActs : List Nat) (total : Nat)
    (h : total ≤ LIMIT_MAXIMUM) :
    get_activities_order allActs total = (allActs.take total).reverse := by
  unfold get_activities_order
  cases total with
  | zero => rfl
  | succ t =>
    simp only [pagerLoop]
    rw [if_pos (by omega)]
    have hnum : (if LIMIT_MAXIMUM < t + 1 - 0 then LIMIT_MAXIMUM
        else t + 1 - 0) = t + 1 := by
      have h1000 : ¬ LIMIT_MAXIMUM < t + 1 - 0 := by
        simp only [LIMIT_MAXIMUM] at h ⊢
        omega
      rw [if_neg h1000]
      omega
    rw [hnum]
    rw [pagerLoop_done allActs (t + 1) (0 + (t + 1)) t (by omega)]
    simp

/-- C5 counterexample: with 1001 activities (service listing newest first,
here ages 0..1000 with index 0 the newest) the processing order is not
globally chronological: the run processes the first page of 1000 oldest
first, then the final, oldest activity — so the first processed activity is
999, not the oldest 1000, and the order differs from the chronological
(fully reversed) one. -/
theorem get_activities_order_not_chronological :
    get_activities_order (List.range 1001) 1001 ≠ (List.range 1001).reverse ∧
    (get_activities_order (List.range 1001) 1001).head? = some 999 ∧
    ((List.range 1001).reverse).head? = some 1000 :=
  ⟨by decide, by decide, by decide⟩

/-- C5 amended: the pager issues listing requests exactly as the spec words
it — (offset, limit) with limit = min(remaining, 1000) until offset reaches
the total — and iterates each page in reverse of its natural order; the
overall processing order is chronological (oldest first) when the total
fits one page (total ≤ 1000), while with several pages each page is
oldest-first internally but the newest page is processed first. -/
theorem get_activities_paging_spec (allActs : List Nat) (total : Nat) :
    get_activities_requests allActs total
      = pagerRequestsSpecWords total 0 total ∧
    get_activities_order allActs total
      = ((get_activities_requests allActs total).map
          (fun p => ((allActs.drop p.1).take p.2).reverse)).flatten ∧
    (total ≤ LIMIT_MAXIMUM →
      get_activities_order allActs total = (allActs.take total).reverse) :=
  ⟨pagerLoop_requests_eq allActs total total 0,
   pagerLoop_order_join allActs total total 0,
   fun h => pager_single_page allActs total h⟩

/-- Witness for get_activities_paging_spec: a two-element request over a
three-element newest-first listing is processed oldest first. -/
theorem get_activities_paging_spec_witness :
    get_activities_order [5, 4, 3] 2 = [4, 5] :=
  (get_activities_paging_spec [5, 4, 3] 2).2.2 (by decide)

/-- C8 counterexample: on a device-detail fetch failure (HTTP not ok) the
resolver caches and returns the synthetic placeholder "device-id:42", not
null as the claim states (the claim swaps the placeholder and null cases). -/
theorem extract_device_placeholder_on_failed_fetch :
    extract_device devEnvFail []
      (.jobj [("metadataDTO", .jobj [("deviceApplicationInstallationId", .jnum 42),
        ("deviceMetaDataDTO", .jobj [("deviceId", .jstr "x")])])])
      = .ok ([(.snum 42, some "device-id:42"), (.snum 42, none)],
          some "device-id:42") := rfl

/-- C8 amended: the device resolver returns null (touching nothing) when
metadataDTO or deviceApplicationInstallationId is absent/null; a cache hit
returns the cached value unchanged; on a cache miss it first caches null,
then fetches device detail only when deviceMetaDataDTO lacks deviceId or
holds a truthy deviceId other than "0": an HTTP failure caches and returns
the synthetic placeholder "device-id:<id>" (not null), a response carrying
productDisplayName caches productDisplayName + " " + versionString, a
response without it leaves the cached null; when no fetch is gated in, the
cached null is returned; and when deviceMetaDataDTO itself is absent or
null the resolver raises AttributeError, which does abort the pipeline. -/
theorem extract_device_spec (env : DevEnv) (dd : DeviceDict) (details : JVal) :
    (jmem "metadataDTO" details = false →
      extract_device env dd details = .ok (dd, none)) ∧
    (∀ dai, jmem "metadataDTO" details = true →
      pyGetE (jget details "metadataDTO") "deviceApplicationInstallationId"
        = .ok dai →
      isNull dai = true →
      extract_device env dd details = .ok (dd, none)) ∧
    (∀ dai key v, jmem "metadataDTO" details = true →
      pyGetE (jget details "metadataDTO") "deviceApplicationInstallationId"
        = .ok dai →
      isNull dai = false → toScalar dai = some key →
      alookup key dd = some v →
      extract_device env dd details = .ok (dd, v)) ∧
    (∀ dai key dm did, jmem "metadataDTO" details = true →
      pyGetE (jget details "metadataDTO") "deviceApplicationInstallationId"
        = .ok dai →
      isNull dai = false → toScalar dai = some key → alookup key dd = none →
      pyGetE (jget details "metadataDTO") "deviceMetaDataDTO" = .ok dm →
      pyGetE dm "deviceId" = .ok did →
      (!(jmem "deviceId" dm) || (truthy did && !(isStr0 did))) = true →
      (env.device (pyStr dai)).1 = false →
      extract_device env dd details
        = .ok (aset key (some ("device-id:" ++ pyStr dai)) (aset key none dd),
            some ("device-id:" ++ pyStr dai))) ∧
    (∀ dai key dm did p v, jmem "metadataDTO" details = true →
      pyGetE (jget details "metadataDTO") "deviceApplicationInstallationId"
        = .ok dai →
      isNull dai = false → toScalar dai = some key → alookup key dd = none →
      pyGetE (jget details "metadataDTO") "deviceMetaDataDTO" = .ok dm →
      pyGetE dm "deviceId" = .ok did →
      (!(jmem "deviceId" dm) || (truthy did && !(isStr0 did))) = true →
      (env.device (pyStr dai)).1 = true →
      jlookup (env.device (pyStr dai)).2 "productDisplayName" = some (.jstr p) →
      jlookup (env.device (pyStr dai)).2 "versionString" = some (.jstr v) →
      extract_device env dd details
        = .ok (aset key (some (p ++ " " ++ v)) (aset key none dd),
            some (p ++ " " ++ v))) ∧
    (∀ dai key dm did, jmem "metadataDTO" details = true →
      pyGetE (jget details "metadataDTO") "deviceApplicationInstallationId"
        = .ok dai →
      isNull dai = false → toScalar dai = some key → alookup key dd = none →
      pyGetE (jget details "metadataDTO") "deviceMetaDataDTO" = .ok dm →
      pyGetE dm "deviceId" = .ok did →
      (!(jmem "deviceId" dm) || (truthy did && !(isStr0 did))) = true →
      (env.device (pyStr dai)).1 = true →
      jmem "productDisplayName" (env.device (pyStr dai)).2 = false →
      extract_device env dd details = .ok (aset key none dd, none)) ∧
    (∀ dai key dm did, jmem "metadataDTO" details = true →
      pyGetE (jget details "metadataDTO") "deviceApplicationInstallationId"
        = .ok dai →
      isNull dai = false → toScalar dai = some key → alookup key dd = none →
      pyGetE (jget details "metadataDTO") "deviceMetaDataDTO" = .ok dm →
      pyGetE dm "deviceId" = .ok did →
      (!(jmem "deviceId" dm) || (truthy did && !(isStr0 did))) = false →
      extract_device env dd details = .ok (aset key none dd, none)) ∧
    (∀ dai key, jmem "metadataDTO" details = true →
      pyGetE (jget details "metadataDTO") "deviceApplicationInstallationId"
        = .ok dai →
      isNull dai = false → toScalar dai = some key → alookup key dd = none →
      pyGetE (jget details "metadataDTO") "deviceMetaDataDTO" = .ok .jnull →
      extract_device env dd details = .error (.attributeError "get")) := by
  refine ⟨?_, ?_, ?_, ?_, ?_, ?_, ?_, ?_⟩
  · intro h1
    simp [extract_device, h1]
  · intro dai h1 h2 h3
    simp [extract_device, h1, h2, h3]
  · intro dai key v h1 h2 h3 h4 h5
    simp [extract_device, h1, h2, h3, h4, h5]
  · intro dai key dm did h1 h2 h3 h4 h5 h6 h7 h8 h9
    simp [extract_device, h1, h2, h3, h4, h5, h6, h7, h8, h9]
  · intro dai key dm did p v h1 h2 h3 h4 h5 h6 h7 h8 h9 h10 h11
    have hmem : jmem "productDisplayName" (env.device (pyStr dai)).2 = true := by
      simp [jmem, h10]
    simp [extract_device, h1, h2, h3, h4, h5, h6, h7, h8, h9, hmem, h10, h11]
  · intro dai key dm did h1 h2 h3 h4 h5 h6 h7 h8 h9 h10
    simp [extract_device, h1, h2, h3, h4, h5, h6, h7, h8, h9, h10]
  · intro dai key dm did h1 h2 h3 h4 h5 h6 h7 h8
    simp [extract_device, h1, h2, h3, h4, h5, h6, h7, h8]
  · intro dai key h1 h2 h3 h4 h5 h6
    simp only [extract_device, h1, h2, h3, h4, h5, h6]
    rfl

/-- Witness for extract_device_spec: a cache miss whose device fetch fails
caches and returns the synthetic placeholder. -/
theorem extract_device_spec_witness :
    extract_device devEnvFail []
      (.jobj [("metadataDTO", .jobj [("deviceApplicationInstallationId", .jnum 7),
        ("deviceMetaDataDTO", .jobj [])])])
      = .ok ([(.snum 7, some "device-id:7"), (.snum 7, none)], some "device-id:7") :=
  (extract_device_spec devEnvFail []
    (.jobj [("metadataDTO", .jobj [("deviceApplicationInstallationId", .jnum 7),
      ("deviceMetaDataDTO", .jobj [])])])).2.2.2.1 (.jnum 7) (.snum 7) (.jobj [])
    .jnull rfl rfl rfl rfl rfl rfl rfl rfl rfl
